import Mathlib

/-!
Shallow embedding of the KYC server (src/app.py): a Flask CRUD/upload
service with three tables (User, Document, Face), an object-storage
helper, and one handler per (resource, verb) pair.  Handlers are modelled
as pure functions from the request data and the persistent state to an
outcome (a JSON response with a status code, or an unhandled exception)
paired with the successor state.  Timestamps are naturals supplied as a
`now` parameter at each request.
-/

namespace KYC

/-- User row of the user table (src/app.py lines 44-52).  The created_at
column has a creation-time default; updated_at has only an onupdate hook,
so it stays NULL until the first emitted UPDATE. -/
structure UserRec where
  id : Nat
  name : String
  phone : String
  aadhaar : Option String
  email : Option String
  address : Option String
  created_at : Nat
  updated_at : Option Nat
  deriving Repr, DecidableEq

/-- Document row of the documents table (src/app.py lines 55-62). -/
structure DocumentRec where
  id : Nat
  user_id : Nat
  doc_type : String
  doc_url : String
  status : String
  uploaded_at : Nat
  deriving Repr, DecidableEq

/-- Face row of the faces table (src/app.py lines 65-73).  The two score
columns are floating point in the source; no claim involves their
arithmetic, so their values are carried opaquely as naturals. -/
structure FaceRec where
  id : Nat
  user_id : Nat
  face_url : String
  liveness_score : Option Nat
  match_score : Option Nat
  status : String
  created_at : Nat
  deriving Repr, DecidableEq

/-- Uploaded file part of a multipart form: the original filename plus a
MIME type, as the handlers see it in request.files. -/
structure FileRec where
  filename : String
  mimetype : String
  deriving Repr, DecidableEq

/-- Minimal JSON model for the bodies produced by jsonify. -/
inductive Json where
  | nullJ : Json
  | str : String → Json
  | num : Nat → Json
  | arr : List Json → Json
  | obj : List (String × Json) → Json
  deriving Repr

/-- Top-level keys of a JSON object (empty for non-objects). -/
def Json.keys : Json → List String
  | .obj fs => fs.map Prod.fst
  | _ => []

/-- Result of one request: either a JSON response with an HTTP status
code, or an unhandled Python exception escaping the handler (Flask then
serves its generic 500 error page, not a handler-built JSON body). -/
inductive Outcome where
  | resp : Nat → Json → Outcome
  | crash : String → Outcome
  deriving Repr

/-- Whole persistent state: the three tables, the autoincrement counters
of their primary keys, and the log of object keys written to the object
store (one entry per s3.upload_fileobj call). -/
structure St where
  users : List UserRec
  documents : List DocumentRec
  faces : List FaceRec
  nextUserId : Nat
  nextDocId : Nat
  nextFaceId : Nat
  uploads : List String
  deriving Repr

/-- Configuration of the object-storage gateway: S3_ENDPOINT and
S3_BUCKET (src/app.py lines 25-27), plus the filename sanitizer, which
stands for werkzeug.utils.secure_filename — an external library function
kept abstract. -/
structure Env where
  endpoint : String
  bucket : String
  sanitize : String → String

/-- Python str.replace of the literal substring "/s3" by the empty
string, scanning left to right over the characters (src/app.py line 87
applies it to S3_ENDPOINT): every occurrence is removed, wherever it
sits in the string. -/
def dropS3Chars : List Char → List Char
  | '/' :: 's' :: '3' :: rest => dropS3Chars rest
  | c :: rest => c :: dropS3Chars rest
  | [] => []

/-- String form of dropS3Chars. -/
def dropS3 (s : String) : String := String.mk (dropS3Chars s.data)

/-- Helper upload_to_supabase (src/app.py lines 77-87): sanitize the
original filename, compose the object key as path/filename, write the
object, and return the public URL built from the endpoint after the
replace of "/s3".  Returns the URL together with the updated upload
log. -/
def upload_to_supabase (env : Env) (file : FileRec) (path : String)
    (uploads : List String) : String × List String :=
  let filename := env.sanitize file.filename
  let key := path ++ "/" ++ filename
  let url := dropS3 env.endpoint ++ "/object/public/" ++ env.bucket ++ "/" ++ key
  (url, uploads ++ [key])

/-- JSON error body, the shape every explicit error path returns. -/
def errJ (msg : String) : Json := .obj [("error", .str msg)]

/-- Serialization of a nullable text column. -/
def optStrJ : Option String → Json
  | none => .nullJ
  | some s => .str s

/-- Serialization of a nullable numeric column. -/
def optNumJ : Option Nat → Json
  | none => .nullJ
  | some n => .num n

/-- User.query.get: look the row up by primary key. -/
def findUser (st : St) (id : Nat) : Option UserRec :=
  st.users.find? (fun u => u.id == id)

/-- Document.query.get: look the row up by primary key. -/
def findDoc (st : St) (id : Nat) : Option DocumentRec :=
  st.documents.find? (fun d => d.id == id)

/-- Face.query.get: look the row up by primary key. -/
def findFace (st : St) (id : Nat) : Option FaceRec :=
  st.faces.find? (fun f => f.id == id)

/-- Unique constraint declared on the aadhaar column (src/app.py line
48): does some stored row already hold this non-null aadhaar value? -/
def aadhaarTaken (users : List UserRec) (a : Option String) : Bool :=
  match a with
  | none => false
  | some v => users.any (fun u => u.aadhaar == some v)

/-- JSON body of POST /users; a field is some v when present.  The
handler reads name and phone by indexing (KeyError when absent) and
aadhaar via .get (None when absent, src/app.py line 100). -/
structure CreatePayload where
  name : Option String
  phone : Option String
  aadhaar : Option String
  deriving Repr, DecidableEq

/-- JSON body of PUT /users/{id}; the handler reads only phone, name and
aadhaar (src/app.py lines 126-128); email and address may be present in
the request but are never read by it. -/
structure UpdatePayload where
  name : Option String
  phone : Option String
  aadhaar : Option String
  email : Option String
  address : Option String
  deriving Repr, DecidableEq

/-- Multipart form of POST /users/{id}/documents: presence of the file
part in request.files and of doc_type in request.form. -/
structure UploadDocArgs where
  file : Option FileRec
  doc_type : Option String
  deriving Repr, DecidableEq

/-- Handler create_user (src/app.py lines 97-103).  A missing name or
phone raises KeyError out of the handler (name is read first); inserting
a duplicate non-null aadhaar violates the unique constraint of the
column, so the commit raises IntegrityError and no row is stored. -/
def create_user (now : Nat) (data : CreatePayload) (st : St) : Outcome × St :=
  match data.name with
  | none => (.crash "KeyError: name", st)
  | some nm =>
    match data.phone with
    | none => (.crash "KeyError: phone", st)
    | some ph =>
      if aadhaarTaken st.users data.aadhaar then
        (.crash "IntegrityError: duplicate aadhaar", st)
      else
        let uid := st.nextUserId
        let u : UserRec :=
          { id := uid, name := nm, phone := ph, aadhaar := data.aadhaar,
            email := none, address := none, created_at := now, updated_at := none }
        (.resp 201 (.obj [("status", .str "success"), ("user_id", .num uid)]),
         { st with users := st.users ++ [u], nextUserId := uid + 1 })

/-- Handler get_user (src/app.py lines 106-117): 404 when absent,
otherwise a projection of exactly id, name, phone, aadhaar and
created_at. -/
def get_user (id : Nat) (st : St) : Outcome × St :=
  match findUser st id with
  | none => (.resp 404 (errJ "User not found"), st)
  | some u =>
    (.resp 200 (.obj [("id", .num u.id), ("name", .str u.name),
                      ("phone", .str u.phone), ("aadhaar", optStrJ u.aadhaar),
                      ("created_at", .num u.created_at)]), st)

/-- Overwrite of the three fields the update handler reads (src/app.py
lines 126-128); a field absent from the payload keeps its value. -/
def applyPatch (u : UserRec) (data : UpdatePayload) : UserRec :=
  { u with phone := data.phone.getD u.phone,
           name := data.name.getD u.name,
           aadhaar := match data.aadhaar with
                      | some v => some v
                      | none => u.aadhaar }

/-- Unique-constraint conflict for an UPDATE: some other row (different
primary key) holds this row's non-null aadhaar value. -/
def aadhaarClash (users : List UserRec) (u : UserRec) : Bool :=
  match u.aadhaar with
  | none => false
  | some v => users.any (fun w => w.id != u.id && w.aadhaar == some v)

/-- Handler update_user (src/app.py lines 120-130).  The ORM emits an
UPDATE only when some column value has a net change; the onupdate hook
of updated_at (src/app.py line 52) fires exactly then.  The UPDATE
contains only the changed columns, so the unique constraint on aadhaar
is re-checked only when aadhaar itself changed; a change to a value held
by another row makes the commit raise and leaves the state unchanged. -/
def update_user (now : Nat) (id : Nat) (data : UpdatePayload) (st : St) : Outcome × St :=
  match findUser st id with
  | none => (.resp 404 (errJ "User not found"), st)
  | some u =>
    let u1 := applyPatch u data
    if u1.name == u.name && u1.phone == u.phone && u1.aadhaar == u.aadhaar then
      (.resp 200 (.obj [("status", .str "updated")]), st)
    else
      if u1.aadhaar != u.aadhaar && aadhaarClash st.users u1 then
        (.crash "IntegrityError: duplicate aadhaar", st)
      else
        let u2 := { u1 with updated_at := some now }
        (.resp 200 (.obj [("status", .str "updated")]),
         { st with users := st.users.map (fun w => if w.id == id then u2 else w) })

/-- Handler delete_user (src/app.py lines 133-140).  The session deletes
the single user row; no relationship cascade is configured, and the
declared foreign keys of documents and faces name a table (users) that
no model maps to — the User model maps to table user — so no referential
constraint restricts the deletion: document and face rows stay behind. -/
def delete_user (id : Nat) (st : St) : Outcome × St :=
  match findUser st id with
  | none => (.resp 404 (errJ "User not found"), st)
  | some _ =>
    (.resp 200 (.obj [("status", .str "deleted")]),
     { st with users := st.users.filter (fun u => u.id != id) })

/-- Handler upload_document (src/app.py lines 144-157): resolve the user
first (404 when absent), then require both multipart fields (400), then
upload the file and insert the document row with status pending. -/
def upload_document (env : Env) (now : Nat) (id : Nat) (args : UploadDocArgs)
    (st : St) : Outcome × St :=
  match findUser st id with
  | none => (.resp 404 (errJ "User not found"), st)
  | some _ =>
    match args.file, args.doc_type with
    | some file, some dt =>
      let r := upload_to_supabase env file ("documents/" ++ toString id ++ "/" ++ dt) st.uploads
      let did := st.nextDocId
      let doc : DocumentRec :=
        { id := did, user_id := id, doc_type := dt, doc_url := r.1,
          status := "pending", uploaded_at := now }
      (.resp 201 (.obj [("status", .str "uploaded"), ("doc_id", .num did),
                        ("doc_url", .str r.1)]),
       { st with documents := st.documents ++ [doc], nextDocId := did + 1, uploads := r.2 })
    | _, _ => (.resp 400 (errJ "File and doc_type required"), st)

/-- Projection of a document row in the listing (src/app.py lines 163-169). -/
def docProj (d : DocumentRec) : Json :=
  .obj [("id", .num d.id), ("doc_type", .str d.doc_type), ("doc_url", .str d.doc_url),
        ("status", .str d.status), ("uploaded_at", .num d.uploaded_at)]

/-- Handler list_documents (src/app.py lines 160-169): no user lookup;
the documents table is filtered by user id and the projections are
returned with 200 — also when the user does not exist. -/
def list_documents (id : Nat) (st : St) : Outcome × St :=
  (.resp 200 (.arr ((st.documents.filter (fun d => d.user_id == id)).map docProj)), st)

/-- Handler delete_document (src/app.py lines 172-179). -/
def delete_document (doc_id : Nat) (st : St) : Outcome × St :=
  match findDoc st doc_id with
  | none => (.resp 404 (errJ "Document not found"), st)
  | some _ =>
    (.resp 200 (.obj [("status", .str "deleted")]),
     { st with documents := st.documents.filter (fun d => d.id != doc_id) })

/-- Handler upload_face (src/app.py lines 183-195): resolve the user
first (404 when absent), then require the file part (400), then upload
and insert the face row with status pending and NULL scores. -/
def upload_face (env : Env) (now : Nat) (id : Nat) (file : Option FileRec)
    (st : St) : Outcome × St :=
  match findUser st id with
  | none => (.resp 404 (errJ "User not found"), st)
  | some _ =>
    match file with
    | none => (.resp 400 (errJ "File required"), st)
    | some f =>
      let r := upload_to_supabase env f ("faces/" ++ toString id) st.uploads
      let fid := st.nextFaceId
      let fr : FaceRec :=
        { id := fid, user_id := id, face_url := r.1, liveness_score := none,
          match_score := none, status := "pending", created_at := now }
      (.resp 201 (.obj [("status", .str "uploaded"), ("face_id", .num fid),
                        ("face_url", .str r.1)]),
       { st with faces := st.faces ++ [fr], nextFaceId := fid + 1, uploads := r.2 })

/-- Projection of a face row in the listing (src/app.py lines 201-208). -/
def faceProj (f : FaceRec) : Json :=
  .obj [("id", .num f.id), ("face_url", .str f.face_url),
        ("liveness_score", optNumJ f.liveness_score),
        ("match_score", optNumJ f.match_score),
        ("status", .str f.status), ("created_at", .num f.created_at)]

/-- Handler get_faces (src/app.py lines 198-208): no user lookup; the
faces table is filtered by user id and the projections are returned with
200 — also when the user does not exist. -/
def get_faces (id : Nat) (st : St) : Outcome × St :=
  (.resp 200 (.arr ((st.faces.filter (fun f => f.user_id == id)).map faceProj)), st)

/-- Handler delete_face (src/app.py lines 211-218). -/
def delete_face (face_id : Nat) (st : St) : Outcome × St :=
  match findFace st face_id with
  | none => (.resp 404 (errJ "Face not found"), st)
  | some _ =>
    (.resp 200 (.obj [("status", .str "deleted")]),
     { st with faces := st.faces.filter (fun f => f.id != face_id) })

/-! Concrete fixtures used to evaluate the handlers on closed inputs. -/

/-- Identity sanitizer used in concrete evaluations; secure_filename is
the identity on plain names such as f.png. -/
def idSan : String → String := fun s => s

/-- Concrete gateway configuration; the endpoint holds the substring
"/s3" both inside the host part and as a trailing suffix. -/
def env0 : Env :=
  { endpoint := "https://s3.example.com/s3", bucket := "kyc", sanitize := idSan }

/-- Empty store, as right after db.create_all on a fresh database. -/
def emptySt : St :=
  { users := [], documents := [], faces := [], nextUserId := 1, nextDocId := 1,
    nextFaceId := 1, uploads := [] }

/-- Sample user row with every optional attribute set. -/
def user1 : UserRec :=
  { id := 1, name := "Asha", phone := "111", aadhaar := some "123456789012",
    email := some "a@x.in", address := some "12 MG Road", created_at := 10,
    updated_at := none }

/-- Store holding exactly user1. -/
def st1 : St := { emptySt with users := [user1], nextUserId := 2 }

/-- Sample upload file part. -/
def file0 : FileRec := { filename := "f.png", mimetype := "image/png" }

/-- Sample document row owned by user1. -/
def doc1 : DocumentRec :=
  { id := 1, user_id := 1, doc_type := "pan", doc_url := "u", status := "pending",
    uploaded_at := 11 }

/-- Sample face row owned by user1. -/
def face1 : FaceRec :=
  { id := 1, user_id := 1, face_url := "v", liveness_score := none,
    match_score := none, status := "pending", created_at := 12 }

/-- Store holding user1 together with one document and one face row. -/
def st2 : St :=
  { st1 with documents := [doc1], faces := [face1], nextDocId := 2, nextFaceId := 2 }

/-! Claim theorems. -/

/-- C1: when no user with the given id exists, both upload handlers
return 404 with an error body and leave the whole state — in particular
the upload log and the document and face tables — unchanged: no
object-store write and no row insertion happens. -/
theorem c1_upload_requires_user (env : Env) (now id : Nat) (args : UploadDocArgs)
    (file : Option FileRec) (st : St) (h : findUser st id = none) :
    upload_document env now id args st = (.resp 404 (errJ "User not found"), st) ∧
    upload_face env now id file st = (.resp 404 (errJ "User not found"), st) := by
  constructor <;> simp only [upload_document, upload_face, h]

/-- C1 witness: a document upload and a face upload for the absent user
id 7 on the empty store. -/
theorem c1_upload_requires_user_witness :
    upload_document env0 5 7 ⟨some file0, some "pan"⟩ emptySt
      = (.resp 404 (errJ "User not found"), emptySt) ∧
    upload_face env0 5 7 (some file0) emptySt
      = (.resp 404 (errJ "User not found"), emptySt) :=
  c1_upload_requires_user env0 5 7 ⟨some file0, some "pan"⟩ (some file0) emptySt rfl

/-- C9: in the upload handlers the user-existence check precedes field
validation: with the user absent and the file (and doc_type) fields also
missing from the request, the response is the 404 user-not-found error,
not a 400. -/
theorem c9_user_check_precedes_field_check (env : Env) (now id : Nat) (st : St)
    (h : findUser st id = none) :
    upload_document env now id ⟨none, none⟩ st = (.resp 404 (errJ "User not found"), st) ∧
    upload_face env now id none st = (.resp 404 (errJ "User not found"), st) := by
  constructor <;> simp only [upload_document, upload_face, h]

/-- C9 witness: requests without any file or doc_type field for the
absent user id 2 on the store holding only user 1. -/
theorem c9_user_check_precedes_field_check_witness :
    upload_document env0 9 2 ⟨none, none⟩ st1 = (.resp 404 (errJ "User not found"), st1) ∧
    upload_face env0 9 2 none st1 = (.resp 404 (errJ "User not found"), st1) :=
  c9_user_check_precedes_field_check env0 9 2 st1 rfl

/-- C7: every read, update or delete by primary key on an id with no
matching row answers 404 with a JSON error body and leaves the state
unchanged, for the user, document and face resources alike. -/
theorem c7_pk_miss_is_404 (now id docId faceId : Nat) (data : UpdatePayload) (st : St)
    (hu : findUser st id = none) (hd : findDoc st docId = none)
    (hf : findFace st faceId = none) :
    get_user id st = (.resp 404 (errJ "User not found"), st) ∧
    update_user now id data st = (.resp 404 (errJ "User not found"), st) ∧
    delete_user id st = (.resp 404 (errJ "User not found"), st) ∧
    delete_document docId st = (.resp 404 (errJ "Document not found"), st) ∧
    delete_face faceId st = (.resp 404 (errJ "Face not found"), st) := by
  refine ⟨?_, ?_, ?_, ?_, ?_⟩ <;>
    simp only [get_user, update_user, delete_user, delete_document, delete_face, hu, hd, hf]

/-- C7 witness: id 9 matches no user, document or face row in the store
holding user 1 with one document and one face. -/
theorem c7_pk_miss_is_404_witness :
    get_user 9 st2 = (.resp 404 (errJ "User not found"), st2) ∧
    update_user 3 9 ⟨some "n", none, none, none, none⟩ st2
      = (.resp 404 (errJ "User not found"), st2) ∧
    delete_user 9 st2 = (.resp 404 (errJ "User not found"), st2) ∧
    delete_document 9 st2 = (.resp 404 (errJ "Document not found"), st2) ∧
    delete_face 9 st2 = (.resp 404 (errJ "Face not found"), st2) :=
  c7_pk_miss_is_404 3 9 9 9 ⟨some "n", none, none, none, none⟩ st2 rfl rfl rfl

/-- C10: for an existing user the GET projection carries exactly the
keys id, name, phone, aadhaar and created_at; email, address and
updated_at never appear, whatever their stored values. -/
theorem c10_get_user_projection (id : Nat) (st : St) (u : UserRec)
    (h : findUser st id = some u) :
    ∃ b, get_user id st = (.resp 200 b, st) ∧
      Json.keys b = ["id", "name", "phone", "aadhaar", "created_at"] ∧
      "email" ∉ Json.keys b ∧ "address" ∉ Json.keys b ∧ "updated_at" ∉ Json.keys b := by
  refine ⟨.obj [("id", .num u.id), ("name", .str u.name), ("phone", .str u.phone),
      ("aadhaar", optStrJ u.aadhaar), ("created_at", .num u.created_at)], ?_, ?_, ?_, ?_, ?_⟩
  · simp only [get_user, h]
  all_goals simp [Json.keys]

/-- C10 witness: user 1 has email and address set, yet neither key is in
the response body. -/
theorem c10_get_user_projection_witness :
    ∃ b, get_user 1 st1 = (.resp 200 b, st1) ∧
      Json.keys b = ["id", "name", "phone", "aadhaar", "created_at"] ∧
      "email" ∉ Json.keys b ∧ "address" ∉ Json.keys b ∧ "updated_at" ∉ Json.keys b :=
  c10_get_user_projection 1 st1 user1 rfl

/-- C8: deleting an existing user succeeds with 200 even when document
or face rows referencing the id exist; only the user row is removed and
the document and face tables (and the upload log) keep every row. -/
theorem c8_delete_user_leaves_orphans (id : Nat) (st : St) (u : UserRec)
    (h : findUser st id = some u) :
    delete_user id st
      = (.resp 200 (.obj [("status", .str "deleted")]),
         { st with users := st.users.filter (fun w => w.id != id) }) ∧
    (delete_user id st).2.documents = st.documents ∧
    (delete_user id st).2.faces = st.faces ∧
    (delete_user id st).2.uploads = st.uploads ∧
    ∀ w ∈ (delete_user id st).2.users, w.id ≠ id := by
  have h1 : delete_user id st
      = (.resp 200 (.obj [("status", .str "deleted")]),
         { st with users := st.users.filter (fun w => w.id != id) }) := by
    simp only [delete_user, h]
  refine ⟨h1, by rw [h1], by rw [h1], by rw [h1], ?_⟩
  rw [h1]
  intro w hw
  simpa using List.of_mem_filter hw

/-- C8 witness: user 1 is deleted from a store where one document row
and one face row reference id 1; the handler answers 200 and both rows
survive. -/
theorem c8_delete_user_leaves_orphans_witness :
    delete_user 1 st2
      = (.resp 200 (.obj [("status", .str "deleted")]),
         { st2 with users := st2.users.filter (fun w => w.id != 1) }) ∧
    (delete_user 1 st2).2.documents = st2.documents ∧
    (delete_user 1 st2).2.faces = st2.faces ∧
    (delete_user 1 st2).2.uploads = st2.uploads ∧
    ∀ w ∈ (delete_user 1 st2).2.users, w.id ≠ 1 :=
  c8_delete_user_leaves_orphans 1 st2 user1 rfl

/-- C6 counterexample: user 7 does not exist in the empty store, yet
both listing endpoints answer 200 with an empty JSON array — neither
returns the 404 the claim requires. -/
theorem c6_counterexample :
    findUser emptySt 7 = none ∧
    list_documents 7 emptySt = (.resp 200 (.arr []), emptySt) ∧
    get_faces 7 emptySt = (.resp 200 (.arr []), emptySt) ∧
    (list_documents 7 emptySt).1 ≠ .resp 404 (errJ "User not found") ∧
    (get_faces 7 emptySt).1 ≠ .resp 404 (errJ "User not found") := by
  refine ⟨rfl, rfl, rfl, ?_, ?_⟩ <;>
    (intro hcontra; simp [list_documents, get_faces, emptySt] at hcontra)

/-- C6 amended: the listing handlers never resolve the user: for every
id — existing or not — GET documents and GET face answer 200 with the
array of projections of exactly the rows whose user_id matches (empty
when none match, possibly non-empty for a non-existent user when
orphaned rows remain) and leave the state unchanged; neither ever
answers 404. -/
theorem c6_amended_listing_no_user_check (id : Nat) (st : St) :
    list_documents id st
      = (.resp 200 (.arr ((st.documents.filter (fun d => d.user_id == id)).map docProj)),
         st) ∧
    get_faces id st
      = (.resp 200 (.arr ((st.faces.filter (fun f => f.user_id == id)).map faceProj)),
         st) :=
  ⟨rfl, rfl⟩

/-- C2 counterexample: POST /users with a payload missing the required
name field does not answer 400 with a descriptive error body — the
handler raises KeyError, an unhandled exception (Flask serves its
generic 500 page) — though indeed no row is inserted. -/
theorem c2_counterexample :
    create_user 0 ⟨none, some "111", none⟩ emptySt
      = (.crash "KeyError: name", emptySt) ∧
    ¬ ∃ b, (create_user 0 ⟨none, some "111", none⟩ emptySt).1 = Outcome.resp 400 b := by
  refine ⟨rfl, ?_⟩
  rintro ⟨b, hb⟩
  simp [create_user, emptySt] at hb

/-- C2 amended: the upload handlers answer 400 with a descriptive error
body and change nothing when a required multipart field is missing and
the user exists; POST /users with a missing name or phone also causes no
side effects, but it raises an unhandled KeyError instead of producing a
400 response with a descriptive error body. -/
theorem c2_amended_missing_fields (env : Env) (now id : Nat) (st : St) (u : UserRec)
    (data : CreatePayload) (args : UploadDocArgs)
    (hmiss : data.name = none ∨ data.phone = none) :
    (∃ m, create_user now data st = (Outcome.crash m, st)) ∧
    (findUser st id = some u → args.file = none ∨ args.doc_type = none →
      upload_document env now id args st
        = (.resp 400 (errJ "File and doc_type required"), st)) ∧
    (findUser st id = some u →
      upload_face env now id none st = (.resp 400 (errJ "File required"), st)) := by
  refine ⟨?_, ?_, ?_⟩
  · rcases hname : data.name with _ | nm
    · exact ⟨"KeyError: name", by simp only [create_user, hname]⟩
    · rcases hmiss with hn | hp
      · rw [hname] at hn
        exact absurd hn (by simp)
      · exact ⟨"KeyError: phone", by simp only [create_user, hname, hp]⟩
  · intro hu hdoc
    rcases hdoc with hfi | hdt
    · simp only [upload_document, hu, hfi]
    · rcases hfile : args.file with _ | f <;>
        simp only [upload_document, hu, hdt, hfile]
  · intro hu
    simp only [upload_face, hu]

/-- C2 amended witness: a create request missing name crashes with no
insertion on the store holding user 1; on the same store — user 1
existing — a document upload missing doc_type and a face upload missing
the file answer 400 and leave it untouched. -/
theorem c2_amended_missing_fields_witness :
    (∃ m, create_user 4 ⟨none, some "222", none⟩ st1 = (Outcome.crash m, st1)) ∧
    upload_document env0 4 1 ⟨some file0, none⟩ st1
      = (.resp 400 (errJ "File and doc_type required"), st1) ∧
    upload_face env0 4 1 none st1 = (.resp 400 (errJ "File required"), st1) := by
  obtain ⟨h1, h2, h3⟩ := c2_amended_missing_fields env0 4 1 st1 user1
    ⟨none, some "222", none⟩ ⟨some file0, none⟩ (Or.inl rfl)
  exact ⟨h1, h2 rfl (Or.inr rfl), h3 rfl⟩

/-- Endpoint normalization as the spec words it: the trailing "/s3" path
suffix — and only a suffix — removed when present.  Spec-side comparator
for the refinement claim about the public URL; the code-side definition
is dropS3. -/
def specEndpointBase (s : String) : String :=
  if ['/', 's', '3'].isSuffixOf s.data then String.mk (s.data.take (s.data.length - 3))
  else s

/-- Public URL of an upload as the spec's template prescribes it. -/
def specPublicUrl (env : Env) (file : FileRec) (path : String) : String :=
  specEndpointBase env.endpoint ++ "/object/public/" ++ env.bucket ++ "/"
    ++ (path ++ "/" ++ env.sanitize file.filename)

/-- C4 counterexample: with the endpoint https://s3.example.com/s3 the
code also removes the occurrence of "/s3" inside the host part, so the
returned URL differs from the one the claim prescribes at this input. -/
theorem c4_counterexample :
    (upload_to_supabase env0 file0 "documents/1/pan" []).1
      = "https:/.example.com/object/public/kyc/documents/1/pan/f.png" ∧
    specPublicUrl env0 file0 "documents/1/pan"
      = "https://s3.example.com/object/public/kyc/documents/1/pan/f.png" ∧
    (upload_to_supabase env0 file0 "documents/1/pan" []).1
      ≠ specPublicUrl env0 file0 "documents/1/pan" := by
  refine ⟨by decide, by decide, by decide⟩

/-- C4 amended: the upload stores the object under the key composed of
the destination path and the sanitized filename — the key is appended to
the upload log — and returns the URL built from the endpoint with every
occurrence of the substring "/s3" removed, not only a trailing suffix,
followed by /object/public/, the bucket and the key. -/
theorem c4_amended_upload_key_and_url (env : Env) (file : FileRec) (path : String)
    (ups : List String) :
    upload_to_supabase env file path ups
      = (dropS3 env.endpoint ++ "/object/public/" ++ env.bucket ++ "/"
           ++ (path ++ "/" ++ env.sanitize file.filename),
         ups ++ [path ++ "/" ++ env.sanitize file.filename]) := rfl

/-- Invariant of the user table: no two rows hold the same non-null
aadhaar value. -/
def AadhaarUnique (st : St) : Prop :=
  st.users.Pairwise (fun a b => a.aadhaar = none ∨ a.aadhaar ≠ b.aadhaar)

/-- C3: creating a user whose non-null aadhaar is already held by some
stored row fails — the commit raises on the unique constraint, nothing
is answered with 201 and the state is unchanged — and create_user
preserves the uniqueness of non-null aadhaar values. -/
theorem c3_aadhaar_unique (now : Nat) (data : CreatePayload) (st : St) :
    (∀ v, data.aadhaar = some v → (∃ u ∈ st.users, u.aadhaar = some v) →
      ∃ m, create_user now data st = (Outcome.crash m, st)) ∧
    (AadhaarUnique st → AadhaarUnique (create_user now data st).2) := by
  have htakenOf : ∀ v, data.aadhaar = some v → (∃ u ∈ st.users, u.aadhaar = some v) →
      aadhaarTaken st.users data.aadhaar = true := by
    rintro v hv ⟨u, hu, hua⟩
    simp only [aadhaarTaken, hv, List.any_eq_true]
    exact ⟨u, hu, by simp [hua]⟩
  constructor
  · intro v hv hex
    rcases hn : data.name with _ | nm
    · exact ⟨"KeyError: name", by simp only [create_user, hn]⟩
    · rcases hp : data.phone with _ | ph
      · exact ⟨"KeyError: phone", by simp only [create_user, hn, hp]⟩
      · exact ⟨"IntegrityError: duplicate aadhaar",
          by simp only [create_user, hn, hp, htakenOf v hv hex, if_true]⟩
  · intro hAU
    rcases hn : data.name with _ | nm
    · simpa only [create_user, hn] using hAU
    · rcases hp : data.phone with _ | ph
      · simpa only [create_user, hn, hp] using hAU
      · rcases htaken : aadhaarTaken st.users data.aadhaar with _ | _
        · simp only [create_user, hn, hp, htaken, if_false, Bool.false_eq_true]
          unfold AadhaarUnique
          rw [List.pairwise_append]
          refine ⟨hAU, by simp, ?_⟩
          intro a ha b hb
          simp only [List.mem_singleton] at hb
          subst hb
          rcases hda : data.aadhaar with _ | v
          · rcases haa : a.aadhaar with _ | x
            · exact Or.inl rfl
            · exact Or.inr (by simp [haa, hda])
          · refine Or.inr ?_
            have hna : ¬ (a.aadhaar == some v) = true := by
              intro hc
              rw [show aadhaarTaken st.users data.aadhaar = true from by
                    simp only [aadhaarTaken, hda, List.any_eq_true]
                    exact ⟨a, ha, hc⟩] at htaken
              cases htaken
            simp only [hda]
            simpa using hna
        · simpa only [create_user, hn, hp, htaken, if_true] using hAU

/-- C3 witness: user 1 already holds aadhaar 123456789012; a second
create request with the same value crashes without touching the store,
and uniqueness carries over to the successor state. -/
theorem c3_aadhaar_unique_witness :
    (∃ m, create_user 3 ⟨some "B", some "222", some "123456789012"⟩ st1
       = (Outcome.crash m, st1)) ∧
    AadhaarUnique (create_user 3 ⟨some "B", some "222", some "123456789012"⟩ st1).2 := by
  obtain ⟨h1, h2⟩ := c3_aadhaar_unique 3 ⟨some "B", some "222", some "123456789012"⟩ st1
  exact ⟨h1 "123456789012" rfl ⟨user1, by decide, rfl⟩,
         h2 (by unfold AadhaarUnique; decide)⟩

/-- C5 counterexample: a payload carrying only email is answered 200 but
overwrites nothing — email keeps its prior value although present in the
payload — and the empty payload is also a successful update (200) after
which updated_at still holds its prior NULL: both the overwrite-exactly
part and the refresh-on-every-successful-update part fail. -/
theorem c5_counterexample :
    update_user 99 1 ⟨none, none, none, some "new@x.in", none⟩ st1
      = (.resp 200 (.obj [("status", .str "updated")]), st1) ∧
    user1.email = some "a@x.in" ∧
    update_user 99 1 ⟨none, none, none, none, none⟩ st1
      = (.resp 200 (.obj [("status", .str "updated")]), st1) ∧
    user1.updated_at = none := by
  exact ⟨rfl, rfl, rfl, rfl⟩

/-- Replacing, in a user list whose first match for key id is u, every
row keyed id by a row u2 also keyed id makes u2 the first match. -/
theorem find?_map_replace (l : List UserRec) (id : Nat) (u u2 : UserRec)
    (h : l.find? (fun w => w.id == id) = some u) (hid : u2.id = id) :
    (l.map (fun w => if w.id == id then u2 else w)).find? (fun w => w.id == id)
      = some u2 := by
  induction l with
  | nil => simp at h
  | cons a l ih =>
    rcases ha : a.id == id with _ | _
    · simp only [List.find?_cons, ha] at h
      simp only [List.map_cons, List.find?_cons, ha, Bool.false_eq_true, if_false]
      exact ih h
    · simp only [List.map_cons, ha, if_true, List.find?_cons, hid, beq_self_eq_true]

/-- C5 amended: the update patches only the three fields the handler
reads — name, phone and aadhaar, each overwritten exactly when present
in the payload — while email, address, created_at, the id and every
other row keep their prior values, as do the document and face tables
and the upload log; the handler answers 200, and updated_at is set to
the request time exactly when the patch changes at least one of the
three values, keeping its prior value when nothing changes. -/
theorem c5_update_partial_patch (now id : Nat) (data : UpdatePayload) (st : St)
    (u : UserRec) (hfind : findUser st id = some u)
    (hclash : aadhaarClash st.users (applyPatch u data) = false) :
    ∃ u', findUser (update_user now id data st).2 id = some u' ∧
      u'.name = data.name.getD u.name ∧
      u'.phone = data.phone.getD u.phone ∧
      u'.aadhaar = (match data.aadhaar with | some v => some v | none => u.aadhaar) ∧
      u'.email = u.email ∧ u'.address = u.address ∧ u'.created_at = u.created_at ∧
      u'.id = u.id ∧
      u'.updated_at = (if applyPatch u data = u then u.updated_at else some now) ∧
      (update_user now id data st).1 = .resp 200 (.obj [("status", .str "updated")]) ∧
      (update_user now id data st).2.documents = st.documents ∧
      (update_user now id data st).2.faces = st.faces ∧
      (update_user now id data st).2.uploads = st.uploads ∧
      ∀ w ∈ st.users, w.id ≠ id → w ∈ (update_user now id data st).2.users := by
  have huid : u.id = id := by
    have := List.find?_some hfind
    simpa using this
  by_cases hb : ((applyPatch u data).name == u.name && (applyPatch u data).phone == u.phone
      && (applyPatch u data).aadhaar == u.aadhaar) = true
  · -- no net change: no UPDATE is emitted, the state is untouched
    have htriple : ((applyPatch u data).name = u.name ∧ (applyPatch u data).phone = u.phone)
        ∧ (applyPatch u data).aadhaar = u.aadhaar := by simpa using hb
    have hsame : applyPatch u data = u := by
      obtain ⟨⟨h1, h2⟩, h3⟩ := htriple
      cases u
      simp only [applyPatch] at h1 h2 h3 ⊢
      simp_all
    have hres : update_user now id data st = (.resp 200 (.obj [("status", .str "updated")]), st) := by
      simp only [update_user, hfind, hb, if_true]
    refine ⟨u, ?_, ?_, ?_, ?_, rfl, rfl, rfl, rfl, ?_, ?_, ?_, ?_, ?_, ?_⟩
    · rw [hres]; exact hfind
    · have : (applyPatch u data).name = data.name.getD u.name := rfl
      rw [← this, htriple.1.1]
    · have : (applyPatch u data).phone = data.phone.getD u.phone := rfl
      rw [← this, htriple.1.2]
    · have : (applyPatch u data).aadhaar
          = (match data.aadhaar with | some v => some v | none => u.aadhaar) := rfl
      rw [← this, htriple.2]
    · rw [if_pos hsame]
    · rw [hres]
    · rw [hres]
    · rw [hres]
    · rw [hres]
    · rw [hres]; intro w hw _; exact hw
  · -- a net change: the UPDATE is emitted and the onupdate hook fires
    have hneq : ¬ applyPatch u data = u := by
      intro hcontra
      exact hb (by rw [hcontra]; simp)
    have hguard : ((applyPatch u data).aadhaar != u.aadhaar
        && aadhaarClash st.users (applyPatch u data)) = false := by
      rw [hclash, Bool.and_false]
    have hres : update_user now id data st
        = (.resp 200 (.obj [("status", .str "updated")]),
           { st with users := st.users.map (fun w =>
               if w.id == id then { applyPatch u data with updated_at := some now } else w) }) := by
      simp only [update_user, hfind, hb, if_false, hguard, Bool.false_eq_true]
    refine ⟨{ applyPatch u data with updated_at := some now },
      ?_, rfl, rfl, rfl, rfl, rfl, rfl, ?_, ?_, ?_, ?_, ?_, ?_, ?_⟩
    · rw [hres]
      exact find?_map_replace st.users id u _ hfind (by simpa [applyPatch] using huid)
    · simp [applyPatch]
    · rw [if_neg hneq]
    · rw [hres]
    · rw [hres]
    · rw [hres]
    · rw [hres]
    · rw [hres]
      intro w hw hwid
      refine List.mem_map.mpr ⟨w, hw, ?_⟩
      simp [hwid]

/-- Update payload of the round-trip example: only phone is present. -/
def pay5 : UpdatePayload := ⟨none, some "9999999999", none, none, none⟩

/-- C5 amended witness: the round-trip request that sets only phone on
user 1 — phone changes, name and aadhaar and email survive, updated_at
becomes the request time 50. -/
theorem c5_update_partial_patch_witness :
    ∃ u', findUser (update_user 50 1 pay5 st1).2 1 = some u' ∧
      u'.name = pay5.name.getD user1.name ∧
      u'.phone = pay5.phone.getD user1.phone ∧
      u'.aadhaar = (match pay5.aadhaar with | some v => some v | none => user1.aadhaar) ∧
      u'.email = user1.email ∧ u'.address = user1.address ∧
      u'.created_at = user1.created_at ∧
      u'.id = user1.id ∧
      u'.updated_at = (if applyPatch user1 pay5 = user1 then user1.updated_at else some 50) ∧
      (update_user 50 1 pay5 st1).1 = .resp 200 (.obj [("status", .str "updated")]) ∧
      (update_user 50 1 pay5 st1).2.documents = st1.documents ∧
      (update_user 50 1 pay5 st1).2.faces = st1.faces ∧
      (update_user 50 1 pay5 st1).2.uploads = st1.uploads ∧
      ∀ w ∈ st1.users, w.id ≠ 1 → w ∈ (update_user 50 1 pay5 st1).2.users :=
  c5_update_partial_patch 50 1 pay5 st1 user1 rfl rfl

end KYC
